import Mathlib

/-!
Verification of the GestureAI backend (FastAPI + pydantic) against its
specification.  The embedding models:

* `serialize_doc` (src/main.py): the document-serialization transform on
  raw store records, modelled as association lists of string keys and
  Python-like values;
* the pydantic schemas `Gesture` and `VoiceCommand` (src/schemas.py) as
  validation functions from raw request bodies to normalized records;
* the create handlers `create_gesture` / `create_voice` (src/main.py)
  parameterized by the store adapter, recording the storage calls made;
* the `suggestions` endpoint (src/main.py) with its dynamic list and
  static fallback.
-/

/-- A Python value as stored in a document: `None`, a string, a number,
a store-native identifier (`ObjectId`, carrying its textual form), or a
date/time value (carrying both its `str()` form and its `isoformat()`
form; these are the only values with an `isoformat` attribute). -/
inductive Val
  | vnone
  | vstr (s : String)
  | vnum (q : ℚ)
  | vid (s : String)
  | vdt (s iso : String)
deriving DecidableEq, Repr

/-- Python `str(v)`. -/
def pyStr : Val → String
  | .vnone => "None"
  | .vstr s => s
  | .vnum q => toString q
  | .vid s => s
  | .vdt s _ => s

/-- Python truthiness of a value. -/
def pyTruthy : Val → Bool
  | .vnone => false
  | .vstr s => !(s = "")
  | .vnum q => !(q = 0)
  | .vid _ => true
  | .vdt _ _ => true

/-- Whether the value has an `isoformat` attribute (a date/time value). -/
def hasIso : Val → Bool
  | .vdt _ _ => true
  | _ => false

/-- A raw document: a Python dict modelled as an association list. -/
abbrev Doc := List (String × Val)

/-- Python `d.get(k)`: the value at the first occurrence of `k`. -/
def dictGet : Doc → String → Option Val
  | [], _ => none
  | p :: t, k => if p.1 = k then some p.2 else dictGet t k

/-- Python `k in d`. -/
def hasKey : Doc → String → Bool
  | [], _ => false
  | p :: t, k => p.1 = k || hasKey t k

/-- Python `d.pop(k)`'s effect on the dict: the entry for `k` removed. -/
def dictPop : Doc → String → Doc
  | [], _ => []
  | p :: t, k => if p.1 = k then dictPop t k else p :: dictPop t k

/-- Python `d[k] = v`: overwrite in place when the key exists, else append. -/
def dictSet (d : Doc) (k : String) (v : Val) : Doc :=
  if hasKey d k then d.map (fun p => if p.1 = k then (k, v) else p)
  else d ++ [(k, v)]

/-- The per-entry date/time conversion of `serialize_doc`'s loop:
a value with an `isoformat` attribute is replaced by its isoformat string. -/
def isoEntry (p : String × Val) : String × Val :=
  match p.2 with
  | .vdt _ iso => (p.1, .vstr iso)
  | _ => p

/-- The date/time conversion of a single value, as done by `isoEntry`. -/
def valIso (v : Val) : Val :=
  match v with
  | .vdt _ iso => .vstr iso
  | _ => v

/-- `serialize_doc` (src/main.py): copy the record; if a `_id` key is
present, pop it and store its `str()` form under `id`; then convert every
value exposing `isoformat` to its ISO string. -/
def serialize_doc (doc : Doc) : Doc :=
  (match dictGet doc "_id" with
   | some v => dictSet (dictPop doc "_id") "id" (.vstr (pyStr v))
   | none => doc).map isoEntry

/-- No value of the record is a date/time value. -/
def noDates (d : Doc) : Bool :=
  d.all (fun p => !hasIso p.2)

-- Schemas (src/schemas.py), modelled as validators on raw request bodies.

/-- A raw Gesture request body. For each field, the outer `none` means the
key is absent from the JSON body; for the optional fields the inner
`none` is an explicit JSON `null`. -/
structure GestureInput where
  name : Option String
  intent : Option String
  app : Option (Option String)
  sensitivity : Option (Option ℚ)
  metadata : Option (Option Doc)
deriving DecidableEq, Repr

/-- A validated, normalized Gesture record (a pydantic `Gesture` instance). -/
structure Gesture where
  name : String
  intent : String
  app : Option String
  sensitivity : Option ℚ
  metadata : Option Doc
deriving DecidableEq, Repr

/-- The bound checks of `Field(0.7, ge=0.0, le=1.0)` on `sensitivity`: a
provided number outside [0, 1] fails validation; a provided `null` or an
absent key does not. -/
def sensitivityErrs : Option (Option ℚ) → List String
  | some (some q) =>
    if q < 0 then ["sensitivity: ensure this value is greater than or equal to 0.0"]
    else if 1 < q then ["sensitivity: ensure this value is less than or equal to 1.0"]
    else []
  | _ => []

/-- Validation of a Gesture body (pydantic): `name` and `intent` are
required `str` fields (any string, including the empty one, is accepted),
`app` defaults to `None`, `sensitivity` defaults to `0.7` and must lie in
[0, 1] when a number is given, `metadata` defaults to the empty dict.
On failure every failing field is reported. -/
def validateGesture (g : GestureInput) : Except (List String) Gesture :=
  match g.name, g.intent, sensitivityErrs g.sensitivity with
  | some n1, some i1, [] =>
    .ok { name := n1, intent := i1,
          app := g.app.join,
          sensitivity := match g.sensitivity with
            | none => some ((7 : ℚ)/10)
            | some s => s,
          metadata := match g.metadata with
            | none => some []
            | some m => m }
  | n1, i1, es =>
    .error ((match n1 with | none => ["name: field required"] | some _ => []) ++
            (match i1 with | none => ["intent: field required"] | some _ => []) ++
            es)

/-- A raw VoiceCommand request body, with the same conventions as
`GestureInput`. -/
structure VoiceInput where
  phrase : Option String
  intent : Option String
  language : Option (Option String)
  app : Option (Option String)
  context : Option (Option Doc)
deriving DecidableEq, Repr

/-- A validated, normalized VoiceCommand record. -/
structure VoiceCommand where
  phrase : String
  intent : String
  language : Option String
  app : Option String
  context : Option Doc
deriving DecidableEq, Repr

/-- Validation of a VoiceCommand body (pydantic): `phrase` and `intent`
are required `str` fields (any string accepted), `language` defaults to
`"en"`, `app` defaults to `None`, `context` defaults to the empty dict. -/
def validateVoice (v : VoiceInput) : Except (List String) VoiceCommand :=
  match v.phrase, v.intent with
  | some p1, some i1 =>
    .ok { phrase := p1, intent := i1,
          language := match v.language with
            | none => some "en"
            | some l => l,
          app := v.app.join,
          context := match v.context with
            | none => some []
            | some c => c }
  | p1, i1 =>
    .error ((match p1 with | none => ["phrase: field required"] | some _ => []) ++
            (match i1 with | none => ["intent: field required"] | some _ => []))

-- Create handlers (src/main.py), parameterized by the store adapter.

/-- The HTTP outcome of a create endpoint: FastAPI rejects an invalid
body with a 422 validation error before the handler runs; the handler
returns the success payload, or turns a storage exception into
HTTPException(500, str(e)). -/
inductive CreateResponse
  | created (id : String) (ok : Bool)
  | validationError (status : Nat) (errors : List String)
  | serverError (status : Nat) (detail : String)
deriving DecidableEq, Repr

/-- POST /gestures (`create_gesture` in src/main.py): validate the body,
then call `create_document("gesture", gesture)` once. The second
component records every `create_document` call made (collection name and
record), so that "no storage call" is observable. -/
def post_gestures (body : GestureInput)
    (create_document : String → Gesture → Except String String) :
    CreateResponse × List (String × Gesture) :=
  match validateGesture body with
  | .error es => (.validationError 422 es, [])
  | .ok g =>
    match create_document "gesture" g with
    | .ok i => (.created i true, [("gesture", g)])
    | .error msg => (.serverError 500 msg, [("gesture", g)])

/-- POST /voices (`create_voice` in src/main.py): validate the body, then
call `create_document("voicecommand", cmd)` once. -/
def post_voices (body : VoiceInput)
    (create_document : String → VoiceCommand → Except String String) :
    CreateResponse × List (String × VoiceCommand) :=
  match validateVoice body with
  | .error es => (.validationError 422 es, [])
  | .ok c =>
    match create_document "voicecommand" c with
    | .ok i => (.created i true, [("voicecommand", c)])
    | .error msg => (.serverError 500 msg, [("voicecommand", c)])

-- The suggestions endpoint (src/main.py).

/-- One entry of the suggestions response. The category is a raw value:
the code puts `g.get('app') or "Custom"` there without stringifying. -/
structure Suggestion where
  title : String
  category : Val
deriving DecidableEq, Repr

/-- The static fallback list `base` in `suggestions`. -/
def baseSuggestions : List Suggestion :=
  [{ title := "Wave to silence notifications", category := .vstr "Focus" },
   { title := "Pinch to zoom in any app", category := .vstr "Navigation" },
   { title := "Say \"open notes\" to start typing", category := .vstr "Voice" }]

/-- One dynamic suggestion from a fetched gesture record: the title
interpolates `g.get('name', 'gesture')` and `g.get('intent', 'an action')`
(the defaults apply only when the key is absent), and the category is
`g.get('app') or "Custom"` (Python `or`: the value when present and
truthy, else "Custom"). -/
def gestureSuggestion (g : Doc) : Suggestion :=
  { title := "Use '" ++ pyStr ((dictGet g "name").getD (.vstr "gesture")) ++
      "' to trigger " ++ pyStr ((dictGet g "intent").getD (.vstr "an action")),
    category :=
      let a := (dictGet g "app").getD .vnone
      if pyTruthy a then a else .vstr "Custom" }

/-- One dynamic suggestion from a fetched voice-command record, built
like `gestureSuggestion` from `phrase`, `intent` and `app`. -/
def voiceSuggestion (v : Doc) : Suggestion :=
  { title := "Say '" ++ pyStr ((dictGet v "phrase").getD (.vstr "command")) ++
      "' to " ++ pyStr ((dictGet v "intent").getD (.vstr "do something")),
    category :=
      let a := (dictGet v "app").getD .vnone
      if pyTruthy a then a else .vstr "Custom" }

/-- The dynamic-list loop of `suggestions`: append one entry per fetched
gesture, then one per fetched voice command. -/
def suggestions_dynamic (recent_gestures recent_voices : List Doc) :
    List Suggestion :=
  let dynamic := recent_gestures.foldl (fun acc g => acc ++ [gestureSuggestion g]) []
  recent_voices.foldl (fun acc v => acc ++ [voiceSuggestion v]) dynamic

/-- GET /suggestions (src/main.py), parameterized by the store adapter
`get_documents`. Fetch up to 3 recent gestures and then up to 3 recent
voice commands; if either fetch fails, both lists become `[]`; answer
with the dynamic list if non-empty, else the static base list, truncated
to 6 entries. -/
def suggestions_endpoint
    (get_documents : String → Nat → Except String (List Doc)) :
    List Suggestion :=
  let fetched : List Doc × List Doc :=
    match get_documents "gesture" 3 with
    | .error _ => ([], [])
    | .ok gs =>
      match get_documents "voicecommand" 3 with
      | .error _ => ([], [])
      | .ok vs => (gs, vs)
  let dynamic := suggestions_dynamic fetched.1 fetched.2
  (if dynamic.isEmpty then baseSuggestions else dynamic).take 6

-- Spec-side readings of the per-record suggestion entries, for comparison
-- with the code's `gestureSuggestion` / `voiceSuggestion`.

/-- Python `a or b` on values. -/
def pyOr (a b : Val) : Val :=
  if pyTruthy a then a else b

/-- The claimed reading of a gesture suggestion, transcribed from the
spec: title "Use '{g.name or "gesture"}' to trigger {g.intent or "an
action"}" with Python `or` semantics on the field values, and category
`g.app` whenever the key is present, else "Custom". -/
def specGestureSuggestion (g : Doc) : Suggestion :=
  { title := "Use '" ++
      pyStr (pyOr ((dictGet g "name").getD (.vstr "gesture")) (.vstr "gesture")) ++
      "' to trigger " ++
      pyStr (pyOr ((dictGet g "intent").getD (.vstr "an action")) (.vstr "an action")),
    category :=
      match dictGet g "app" with
      | some v => v
      | none => .vstr "Custom" }

/-- The claimed reading of a voice-command suggestion, transcribed from
the spec the same way as `specGestureSuggestion`. -/
def specVoiceSuggestion (v : Doc) : Suggestion :=
  { title := "Say '" ++
      pyStr (pyOr ((dictGet v "phrase").getD (.vstr "command")) (.vstr "command")) ++
      "' to " ++
      pyStr (pyOr ((dictGet v "intent").getD (.vstr "do something")) (.vstr "do something")),
    category :=
      match dictGet v "app" with
      | some v1 => v1
      | none => .vstr "Custom" }

/-- The amended reading of a gesture suggestion: the title defaults apply
exactly when the key is absent (a present falsy value is interpolated
as-is), and the category is the `app` value when present and truthy, else
"Custom". -/
def amendedGestureSuggestion (g : Doc) : Suggestion :=
  { title := "Use '" ++
      (match dictGet g "name" with
       | some v => pyStr v
       | none => "gesture") ++
      "' to trigger " ++
      (match dictGet g "intent" with
       | some v => pyStr v
       | none => "an action"),
    category :=
      match dictGet g "app" with
      | some v => if pyTruthy v then v else .vstr "Custom"
      | none => .vstr "Custom" }

/-- The amended reading of a voice-command suggestion, analogous to
`amendedGestureSuggestion`. -/
def amendedVoiceSuggestion (v : Doc) : Suggestion :=
  { title := "Say '" ++
      (match dictGet v "phrase" with
       | some w => pyStr w
       | none => "command") ++
      "' to " ++
      (match dictGet v "intent" with
       | some w => pyStr w
       | none => "do something"),
    category :=
      match dictGet v "app" with
      | some w => if pyTruthy w then w else .vstr "Custom"
      | none => .vstr "Custom" }

-- Basic dictionary lemmas

theorem dictGet_eq_none_of_not_hasKey (d : Doc) (k : String)
    (h : hasKey d k = false) : dictGet d k = none := by
  induction d with
  | nil => rfl
  | cons p t ih =>
    simp only [hasKey, Bool.or_eq_false_iff, decide_eq_false_iff_not] at h
    simp only [dictGet, if_neg h.1]
    exact ih h.2

theorem dictGet_dictPop_ne (d : Doc) (k k1 : String) (hne : ¬ k1 = k) :
    dictGet (dictPop d k) k1 = dictGet d k1 := by
  induction d with
  | nil => rfl
  | cons p t ih =>
    by_cases hp : p.1 = k
    · have h1 : ¬ p.1 = k1 := fun h2 => hne (h2 ▸ hp)
      simp only [dictPop, if_pos hp, dictGet, if_neg h1]
      exact ih
    · by_cases hp1 : p.1 = k1
      · simp only [dictPop, if_neg hp, dictGet, if_pos hp1]
      · simp only [dictPop, if_neg hp, dictGet, if_neg hp1]
        exact ih

theorem hasKey_dictPop_self (d : Doc) (k : String) :
    hasKey (dictPop d k) k = false := by
  induction d with
  | nil => rfl
  | cons p t ih =>
    by_cases hp : p.1 = k
    · simpa only [dictPop, if_pos hp] using ih
    · simp only [dictPop, if_neg hp, hasKey, Bool.or_eq_false_iff,
        decide_eq_false_iff_not]
      exact ⟨hp, ih⟩

theorem dictGet_dictSet_self (d : Doc) (k : String) (v : Val) :
    dictGet (dictSet d k v) k = some v := by
  unfold dictSet
  by_cases h : hasKey d k = true
  · rw [if_pos h]
    induction d with
    | nil => exact absurd h (by simp [hasKey])
    | cons p t ih =>
      by_cases hp : p.1 = k
      · simp [List.map_cons, if_pos hp, dictGet]
      · simp only [hasKey, decide_eq_false hp, Bool.false_or] at h
        simp only [List.map_cons, if_neg hp, dictGet, if_neg hp]
        exact ih h
  · rw [if_neg h]
    induction d with
    | nil => simp [dictGet]
    | cons p t ih =>
      simp only [hasKey, Bool.or_eq_true, decide_eq_true_eq, not_or] at h
      simp only [List.cons_append, dictGet, if_neg h.1]
      exact ih (by simpa [hasKey] using h.2)

theorem dictGet_dictSet_ne (d : Doc) (k k1 : String) (v : Val)
    (hne : ¬ k1 = k) : dictGet (dictSet d k v) k1 = dictGet d k1 := by
  unfold dictSet
  by_cases h : hasKey d k = true
  · rw [if_pos h]
    clear h
    induction d with
    | nil => rfl
    | cons p t ih =>
      by_cases hp : p.1 = k
      · have h1 : ¬ p.1 = k1 := fun h2 => hne (h2 ▸ hp)
        have h2 : ¬ k = k1 := fun h2 => hne h2.symm
        simp only [List.map_cons, if_pos hp, dictGet, if_neg h1, if_neg h2]
        exact ih
      · by_cases hp1 : p.1 = k1
        · simp only [List.map_cons, if_neg hp, dictGet, if_pos hp1]
        · simp only [List.map_cons, if_neg hp, dictGet, if_neg hp1]
          exact ih
  · rw [if_neg h]
    clear h
    have h2 : ¬ k = k1 := fun h3 => hne h3.symm
    induction d with
    | nil => simp [dictGet, if_neg h2]
    | cons p t ih =>
      by_cases hp1 : p.1 = k1
      · simp only [List.cons_append, dictGet, if_pos hp1]
      · simp only [List.cons_append, dictGet, if_neg hp1]
        exact ih

theorem hasKey_dictSet_ne (d : Doc) (k k1 : String) (v : Val)
    (hne : ¬ k1 = k) : hasKey (dictSet d k v) k1 = hasKey d k1 := by
  unfold dictSet
  by_cases h : hasKey d k = true
  · rw [if_pos h]
    clear h
    induction d with
    | nil => rfl
    | cons p t ih =>
      by_cases hp : p.1 = k
      · have h1 : ¬ p.1 = k1 := fun h2 => hne (h2 ▸ hp)
        have h2 : ¬ k = k1 := fun h2 => hne h2.symm
        simp only [List.map_cons, if_pos hp, hasKey, decide_eq_false h1,
          decide_eq_false h2, Bool.false_or]
        exact ih
      · simp only [List.map_cons, if_neg hp, hasKey]
        rw [ih]
  · rw [if_neg h]
    clear h
    have h2 : ¬ k = k1 := fun h3 => hne h3.symm
    induction d with
    | nil => simp [hasKey, h2]
    | cons p t ih =>
      simp only [List.cons_append, hasKey, List.append_eq] at ih ⊢
      rw [ih]

theorem isoEntry_eq (p : String × Val) : isoEntry p = (p.1, valIso p.2) := by
  cases p with
  | mk k v => cases v <;> rfl

theorem dictGet_map_isoEntry (d : Doc) (k : String) :
    dictGet (d.map isoEntry) k = (dictGet d k).map valIso := by
  induction d with
  | nil => rfl
  | cons p t ih =>
    rw [List.map_cons, isoEntry_eq]
    by_cases hp : p.1 = k
    · simp [dictGet, if_pos hp]
    · simp only [dictGet, if_neg hp]
      exact ih

theorem hasKey_map_isoEntry (d : Doc) (k : String) :
    hasKey (d.map isoEntry) k = hasKey d k := by
  induction d with
  | nil => rfl
  | cons p t ih =>
    rw [List.map_cons, isoEntry_eq]
    simp only [hasKey]
    rw [ih]

theorem valIso_not_iso (v : Val) : hasIso (valIso v) = false := by
  cases v <;> rfl

theorem noDates_map_isoEntry (d : Doc) : noDates (d.map isoEntry) = true := by
  induction d with
  | nil => rfl
  | cons p t ih =>
    rw [List.map_cons, isoEntry_eq]
    simp only [noDates, List.all_cons, Bool.and_eq_true]
    exact ⟨by simp [valIso_not_iso], ih⟩

theorem map_isoEntry_of_noDates (d : Doc) (h : noDates d = true) :
    d.map isoEntry = d := by
  induction d with
  | nil => rfl
  | cons p t ih =>
    simp only [noDates, List.all_cons, Bool.and_eq_true] at h
    rw [List.map_cons, isoEntry_eq, ih h.2]
    have h1 : valIso p.2 = p.2 := by
      cases hv : p.2
      · rfl
      · rfl
      · rfl
      · rfl
      · rw [hv] at h
        exact absurd h.1 (by simp [hasIso])
    rw [h1]

theorem hasKey_eq_false_of_dictGet_none (d : Doc) (k : String)
    (h : dictGet d k = none) : hasKey d k = false := by
  induction d with
  | nil => rfl
  | cons p t ih =>
    by_cases hp : p.1 = k
    · rw [dictGet, if_pos hp] at h
      exact Option.noConfusion h
    · rw [dictGet, if_neg hp] at h
      simp only [hasKey, decide_eq_false hp, Bool.false_or]
      exact ih h

/-- A serialized record has no `_id` key left. -/
theorem serialize_doc_no_id_key (doc : Doc) :
    hasKey (serialize_doc doc) "_id" = false := by
  unfold serialize_doc
  rw [hasKey_map_isoEntry]
  cases h : dictGet doc "_id" with
  | none =>
    simp only [h]
    exact hasKey_eq_false_of_dictGet_none doc _ h
  | some v =>
    simp only [h]
    rw [hasKey_dictSet_ne _ _ _ _ (by decide)]
    exact hasKey_dictPop_self doc "_id"

/-- A serialized record has no date/time values left. -/
theorem serialize_doc_noDates (doc : Doc) :
    noDates (serialize_doc doc) = true := by
  unfold serialize_doc
  exact noDates_map_isoEntry _

theorem valIso_eq_self (v : Val) (h : hasIso v = false) : valIso v = v := by
  cases v <;> simp_all [hasIso, valIso]

theorem dictGet_map_valIso_of_noDates (d : Doc) (k : String)
    (h : noDates d = true) : (dictGet d k).map valIso = dictGet d k := by
  induction d with
  | nil => rfl
  | cons p t ih =>
    simp only [noDates, List.all_cons, Bool.and_eq_true] at h
    by_cases hp : p.1 = k
    · simp only [dictGet, if_pos hp]
      simp [valIso_eq_self p.2 (by simpa using h.1)]
    · simp only [dictGet, if_neg hp]
      exact ih h.2

/-- Applying `serialize_doc` to a record with no `_id` key and no
date/time values returns it unchanged. -/
theorem serialize_doc_of_serialized (d : Doc) (h1 : hasKey d "_id" = false)
    (h2 : noDates d = true) : serialize_doc d = d := by
  unfold serialize_doc
  rw [dictGet_eq_none_of_not_hasKey d "_id" h1]
  exact map_isoEntry_of_noDates d h2

theorem serialize_doc_with_id (doc : Doc) (v : Val)
    (h : dictGet doc "_id" = some v) :
    serialize_doc doc =
      (dictSet (dictPop doc "_id") "id" (.vstr (pyStr v))).map isoEntry := by
  unfold serialize_doc
  rw [h]

/-- C6 counterexample: a raw record holding both a native `_id` and a
pre-existing `id` field refutes the claim that every field other than the
native identifier passes through unchanged: the `id` field is
overwritten. -/
theorem serialize_doc_roundtrip_counterexample :
    ¬ (∀ (doc : Doc) (v : Val), dictGet doc "_id" = some v →
        noDates doc = true →
        ∀ k, ¬ k = "_id" → hasKey doc k = true →
          dictGet (serialize_doc doc) k = dictGet doc k) := by
  intro h
  have h1 := h [("_id", .vid "5"), ("id", .vstr "keep")] (.vid "5") rfl rfl
    "id" (by decide) rfl
  revert h1
  decide

/-- C6 (amended): serializing a raw record with a native `_id` value and
no date/time values removes the `_id` field, stores its textual form
under the string-typed `id` field, and passes every field other than
`_id` and a pre-existing `id` through unchanged (a pre-existing `id`
field is overwritten by the identifier's textual form). -/
theorem serialize_doc_roundtrip (doc : Doc) (v : Val)
    (h : dictGet doc "_id" = some v) (hd : noDates doc = true) :
    dictGet (serialize_doc doc) "id" = some (.vstr (pyStr v)) ∧
    hasKey (serialize_doc doc) "_id" = false ∧
    ∀ k, ¬ k = "_id" → ¬ k = "id" →
      dictGet (serialize_doc doc) k = dictGet doc k := by
  refine ⟨?_, serialize_doc_no_id_key doc, ?_⟩
  · rw [serialize_doc_with_id doc v h, dictGet_map_isoEntry,
      dictGet_dictSet_self]
    rfl
  · intro k hk1 hk2
    rw [serialize_doc_with_id doc v h, dictGet_map_isoEntry,
      dictGet_dictSet_ne _ _ _ _ hk2, dictGet_dictPop_ne _ _ _ hk1]
    exact dictGet_map_valIso_of_noDates doc k hd

theorem serialize_doc_roundtrip_witness :
    dictGet (serialize_doc [("_id", .vid "abc"), ("name", .vstr "Wave")]) "id"
      = some (.vstr "abc") ∧
    hasKey (serialize_doc [("_id", .vid "abc"), ("name", .vstr "Wave")]) "_id"
      = false ∧
    dictGet (serialize_doc [("_id", .vid "abc"), ("name", .vstr "Wave")]) "name"
      = dictGet [("_id", .vid "abc"), ("name", .vstr "Wave")] "name" := by
  have h := serialize_doc_roundtrip [("_id", .vid "abc"), ("name", .vstr "Wave")]
    (.vid "abc") rfl rfl
  exact ⟨h.1, h.2.1, h.2.2 "name" (by decide) (by decide)⟩

/-- C7: serialization is idempotent: applying `serialize_doc` to an
already-serialized record (no `_id` field, no date/time values) returns
it unchanged, and applying `serialize_doc` twice always equals applying
it once. -/
theorem serialize_doc_idempotent (d : Doc) :
    (hasKey d "_id" = false → noDates d = true → serialize_doc d = d) ∧
    serialize_doc (serialize_doc d) = serialize_doc d := by
  refine ⟨serialize_doc_of_serialized d, ?_⟩
  exact serialize_doc_of_serialized _ (serialize_doc_no_id_key d)
    (serialize_doc_noDates d)

theorem serialize_doc_idempotent_witness :
    (serialize_doc [("id", .vstr "5"), ("name", .vstr "Wave")]
      = [("id", .vstr "5"), ("name", .vstr "Wave")]) ∧
    serialize_doc (serialize_doc [("id", .vstr "5"), ("name", .vstr "Wave")])
      = serialize_doc [("id", .vstr "5"), ("name", .vstr "Wave")] :=
  ⟨(serialize_doc_idempotent [("id", .vstr "5"), ("name", .vstr "Wave")]).1 rfl rfl,
   (serialize_doc_idempotent [("id", .vstr "5"), ("name", .vstr "Wave")]).2⟩

theorem foldl_append_singleton (f : Doc → Suggestion) (l : List Doc)
    (init : List Suggestion) :
    l.foldl (fun acc x => acc ++ [f x]) init = init ++ l.map f := by
  induction l generalizing init with
  | nil => simp
  | cons x t ih =>
    rw [List.foldl_cons, ih, List.map_cons]
    simp

/-- C10: in the dynamic suggestions list every gesture-derived entry
precedes every voice-derived entry, and each group keeps the order of
the fetched records: the list is exactly the mapped gestures followed by
the mapped voice commands. -/
theorem suggestions_dynamic_order (recent_gestures recent_voices : List Doc) :
    suggestions_dynamic recent_gestures recent_voices =
      recent_gestures.map gestureSuggestion ++
        recent_voices.map voiceSuggestion := by
  unfold suggestions_dynamic
  rw [foldl_append_singleton, foldl_append_singleton]
  simp

/-- C3: when either storage read of GET /suggestions fails, both fetched
sequences are replaced by empty ones and the endpoint still answers (it
is a total function) with exactly the 3-item static fallback. -/
theorem suggestions_storage_fallback
    (get_documents : String → Nat → Except String (List Doc))
    (h : (∃ e, get_documents "gesture" 3 = .error e) ∨
         (∃ e, get_documents "voicecommand" 3 = .error e)) :
    suggestions_endpoint get_documents = baseSuggestions ∧
    baseSuggestions.length = 3 := by
  refine ⟨?_, rfl⟩
  unfold suggestions_endpoint
  cases hg : get_documents "gesture" 3 with
  | error e => rfl
  | ok gs =>
    cases hv : get_documents "voicecommand" 3 with
    | error e => rfl
    | ok vs =>
      exfalso
      rcases h with ⟨e, he⟩ | ⟨e, he⟩
      · rw [hg] at he
        exact Except.noConfusion he
      · rw [hv] at he
        exact Except.noConfusion he

theorem suggestions_storage_fallback_witness :
    suggestions_endpoint (fun _ _ => .error "database unreachable")
      = baseSuggestions ∧
    baseSuggestions.length = 3 :=
  suggestions_storage_fallback (fun _ _ => .error "database unreachable")
    (Or.inl ⟨"database unreachable", rfl⟩)


theorem list_take_six_length_le (l : List Suggestion) :
    (l.take 6).length ≤ 6 := by
  rw [List.length_take]
  exact min_le_left _ _

/-- C4: the GET /suggestions response holds at most 6 items, and when
both fetches succeed it is exactly the first 6 entries of the dynamic
list when that list is non-empty, and exactly the 3-item static fallback
when it is empty — dynamic and fallback entries are never combined. -/
theorem suggestions_at_most_six
    (get_documents : String → Nat → Except String (List Doc)) :
    (suggestions_endpoint get_documents).length ≤ 6 ∧
    baseSuggestions.length = 3 ∧
    (∀ gs vs, get_documents "gesture" 3 = .ok gs →
      get_documents "voicecommand" 3 = .ok vs →
      (¬ suggestions_dynamic gs vs = [] →
        suggestions_endpoint get_documents =
          (suggestions_dynamic gs vs).take 6) ∧
      (suggestions_dynamic gs vs = [] →
        suggestions_endpoint get_documents = baseSuggestions)) := by
  refine ⟨list_take_six_length_le _, rfl, ?_⟩
  intro gs vs hg hv
  constructor
  · intro hne
    unfold suggestions_endpoint
    simp only [hg, hv]
    rw [if_neg (by simpa [List.isEmpty_iff] using hne)]
  · intro hnil
    unfold suggestions_endpoint
    simp only [hg, hv]
    rw [if_pos (by simpa [List.isEmpty_iff] using hnil)]
    rfl

theorem suggestions_at_most_six_witness :
    (suggestions_endpoint
        (fun c _ => if c = "gesture"
          then .ok [[("name", Val.vstr "Wave"), ("intent", Val.vstr "mute")]]
          else .ok [])).length ≤ 6 ∧
    suggestions_endpoint
        (fun c _ => if c = "gesture"
          then .ok [[("name", Val.vstr "Wave"), ("intent", Val.vstr "mute")]]
          else .ok [])
      = (suggestions_dynamic
          [[("name", Val.vstr "Wave"), ("intent", Val.vstr "mute")]] []).take 6 := by
  have h := suggestions_at_most_six
    (fun c _ => if c = "gesture"
      then .ok [[("name", Val.vstr "Wave"), ("intent", Val.vstr "mute")]]
      else .ok [])
  refine ⟨h.1, ?_⟩
  exact (h.2.2 [[("name", Val.vstr "Wave"), ("intent", Val.vstr "mute")]] []
    rfl rfl).1 (by decide)

/-- C5 counterexample: on a fetched gesture record whose `name` key is
present with the empty string (a record the create endpoint itself
accepts), the code interpolates the empty value while the claimed
formula with Python `or` semantics substitutes "gesture": the produced
suggestion differs from the claimed one. -/
theorem suggestion_wording_counterexample :
    ¬ gestureSuggestion [("name", .vstr ""), ("intent", .vstr "mute")] =
      specGestureSuggestion [("name", .vstr ""), ("intent", .vstr "mute")] := by
  decide

/-- C5 (amended): each gesture-derived suggestion has title
"Use '{name}' to trigger {intent}" and each voice-derived one
"Say '{phrase}' to {intent}", where the defaults "gesture" / "an action"
/ "command" / "do something" are used exactly when the key is absent
(a present empty or null value is interpolated as-is), and the category
is the record's `app` value when present and truthy, else "Custom". -/
theorem suggestion_wording (g v : Doc) :
    gestureSuggestion g = amendedGestureSuggestion g ∧
    voiceSuggestion v = amendedVoiceSuggestion v := by
  constructor
  · cases hn : dictGet g "name" <;> cases hi : dictGet g "intent" <;>
      cases ha : dictGet g "app" <;>
      (simp [gestureSuggestion, amendedGestureSuggestion, hn, hi, ha,
        pyStr, pyTruthy]
       try rfl)
  · cases hp : dictGet v "phrase" <;> cases hi : dictGet v "intent" <;>
      cases ha : dictGet v "app" <;>
      (simp [voiceSuggestion, amendedVoiceSuggestion, hp, hi, ha,
        pyStr, pyTruthy]
       try rfl)

theorem validateGesture_error_of_sensitivityErrs (g : GestureInput)
    (hs : ¬ sensitivityErrs g.sensitivity = []) :
    ∃ es, ¬ es = [] ∧ validateGesture g = .error es := by
  unfold validateGesture
  cases hn : g.name <;> cases hi : g.intent <;>
    cases hse : sensitivityErrs g.sensitivity <;>
    simp_all

/-- C1: a Gesture create body whose `sensitivity` is a number outside
[0, 1] is rejected with a 422 validation error (the value is never
clamped) and `create_document` is never called: the recorded list of
storage calls is empty. -/
theorem gesture_sensitivity_out_of_range_rejected (body : GestureInput)
    (q : ℚ) (create_document : String → Gesture → Except String String)
    (hq : body.sensitivity = some (some q)) (hout : q < 0 ∨ 1 < q) :
    ∃ es, ¬ es = [] ∧
      post_gestures body create_document = (.validationError 422 es, []) := by
  have hs : ¬ sensitivityErrs body.sensitivity = [] := by
    rw [hq]
    simp only [sensitivityErrs]
    rcases hout with h1 | h1
    · rw [if_pos h1]
      simp
    · rw [if_neg (by linarith : ¬ q < 0), if_pos h1]
      simp
  obtain ⟨es, hne, he⟩ := validateGesture_error_of_sensitivityErrs body hs
  refine ⟨es, hne, ?_⟩
  unfold post_gestures
  rw [he]

theorem gesture_sensitivity_out_of_range_rejected_witness :
    ∃ es, ¬ es = [] ∧
      post_gestures
        { name := some "Wave", intent := some "mute", app := none,
          sensitivity := some (some 2), metadata := none }
        (fun _ _ => .ok "id1")
      = (.validationError 422 es, []) :=
  gesture_sensitivity_out_of_range_rejected
    { name := some "Wave", intent := some "mute", app := none,
      sensitivity := some (some 2), metadata := none }
    2 (fun _ _ => .ok "id1") rfl (Or.inr (by norm_num))

/-- C2 counterexample: a Gesture body whose `name` and `intent` are the
empty string, and a VoiceCommand body whose `phrase` and `intent` are
the empty string, are accepted by validation, refuting the claim that
empty text in a required field is rejected. -/
theorem empty_text_accepted_counterexample :
    validateGesture
        { name := some "", intent := some "", app := none,
          sensitivity := none, metadata := none }
      = .ok { name := "", intent := "", app := none,
              sensitivity := some ((7 : ℚ)/10), metadata := some [] } ∧
    validateVoice
        { phrase := some "", intent := some "", language := none,
          app := none, context := none }
      = .ok { phrase := "", intent := "", language := some "en",
              app := none, context := some [] } :=
  ⟨rfl, rfl⟩

/-- C2 (amended): a Gesture create body whose `name` or `intent` key is
missing, and a VoiceCommand create body whose `phrase` or `intent` key
is missing, is rejected by validation with a 422 client error before any
storage call (empty text in these fields is accepted, as the
counterexample shows). -/
theorem required_fields_missing_rejected (g : GestureInput)
    (v : VoiceInput) (dbg : String → Gesture → Except String String)
    (dbv : String → VoiceCommand → Except String String) :
    ((g.name = none ∨ g.intent = none) →
      ∃ es, ¬ es = [] ∧
        post_gestures g dbg = (.validationError 422 es, [])) ∧
    ((v.phrase = none ∨ v.intent = none) →
      ∃ es, ¬ es = [] ∧
        post_voices v dbv = (.validationError 422 es, [])) := by
  constructor
  · intro hmiss
    have hge : ∃ es, ¬ es = [] ∧ validateGesture g = .error es := by
      unfold validateGesture
      rcases hmiss with hm | hm <;>
        rw [hm] <;>
        cases hn2 : g.name <;> cases hi2 : g.intent <;>
        cases hse : sensitivityErrs g.sensitivity <;>
        simp_all
    obtain ⟨es, hne, he⟩ := hge
    refine ⟨es, hne, ?_⟩
    unfold post_gestures
    rw [he]
  · intro hmiss
    have hve : ∃ es, ¬ es = [] ∧ validateVoice v = .error es := by
      unfold validateVoice
      rcases hmiss with hm | hm <;>
        rw [hm] <;>
        cases hp2 : v.phrase <;> cases hi2 : v.intent <;>
        simp_all
    obtain ⟨es, hne, he⟩ := hve
    refine ⟨es, hne, ?_⟩
    unfold post_voices
    rw [he]

theorem required_fields_missing_rejected_witness :
    (∃ es, ¬ es = [] ∧
      post_gestures
        { name := none, intent := some "mute", app := none,
          sensitivity := none, metadata := none }
        (fun _ _ => .ok "id1")
      = (.validationError 422 es, [])) ∧
    (∃ es, ¬ es = [] ∧
      post_voices
        { phrase := some "open notes", intent := none, language := none,
          app := none, context := none }
        (fun _ _ => .ok "id2")
      = (.validationError 422 es, [])) := by
  have h := required_fields_missing_rejected
    { name := none, intent := some "mute", app := none,
      sensitivity := none, metadata := none }
    { phrase := some "open notes", intent := none, language := none,
      app := none, context := none }
    (fun _ _ => .ok "id1") (fun _ _ => .ok "id2")
  exact ⟨h.1 (Or.inl rfl), h.2 (Or.inr rfl)⟩

/-- C8: a valid Gesture create body that omits `sensitivity` validates
to a normalized record whose sensitivity is exactly 0.7, and that
record is what the create handler hands to storage. -/
theorem gesture_sensitivity_default (body : GestureInput) (g : Gesture)
    (create_document : String → Gesture → Except String String)
    (homit : body.sensitivity = none)
    (hok : validateGesture body = .ok g) :
    g.sensitivity = some ((7 : ℚ)/10) ∧
    (post_gestures body create_document).2 = [("gesture", g)] := by
  constructor
  · unfold validateGesture at hok
    cases hn : body.name <;> cases hi : body.intent <;>
      cases hse : sensitivityErrs body.sensitivity <;>
      simp_all
    subst hok
    rfl
  · unfold post_gestures
    simp only [hok]
    cases create_document "gesture" g <;> rfl

theorem gesture_sensitivity_default_witness :
    (let body : GestureInput :=
      { name := some "Wave", intent := some "mute", app := none,
        sensitivity := none, metadata := none }
     let g : Gesture :=
      { name := "Wave", intent := "mute", app := none,
        sensitivity := some ((7 : ℚ)/10), metadata := some [] }
     g.sensitivity = some ((7 : ℚ)/10) ∧
       (post_gestures body (fun _ _ => .ok "id1")).2 = [("gesture", g)]) :=
  gesture_sensitivity_default
    { name := some "Wave", intent := some "mute", app := none,
      sensitivity := none, metadata := none }
    { name := "Wave", intent := "mute", app := none,
      sensitivity := some ((7 : ℚ)/10), metadata := some [] }
    (fun _ _ => .ok "id1") rfl rfl

/-- C9: each validated create request calls `create_document` exactly
once, on the lowercase entity collection name ("gesture" for the
`Gesture` schema, "voicecommand" for `VoiceCommand`), with the
normalized record; on success the response is the created id with
ok = true; a storage failure surfaces, without retry, as a 500 server
error whose detail is the failure's message. -/
theorem create_calls_store_once (gb : GestureInput) (g : Gesture)
    (vb : VoiceInput) (c : VoiceCommand)
    (dbg : String → Gesture → Except String String)
    (dbv : String → VoiceCommand → Except String String)
    (hg : validateGesture gb = .ok g) (hv : validateVoice vb = .ok c) :
    (post_gestures gb dbg).2 = [("gesture", g)] ∧
    (∀ i, dbg "gesture" g = .ok i →
      (post_gestures gb dbg).1 = .created i true) ∧
    (∀ msg, dbg "gesture" g = .error msg →
      (post_gestures gb dbg).1 = .serverError 500 msg) ∧
    (post_voices vb dbv).2 = [("voicecommand", c)] ∧
    (∀ i, dbv "voicecommand" c = .ok i →
      (post_voices vb dbv).1 = .created i true) ∧
    (∀ msg, dbv "voicecommand" c = .error msg →
      (post_voices vb dbv).1 = .serverError 500 msg) := by
  refine ⟨?_, ?_, ?_, ?_, ?_, ?_⟩
  · unfold post_gestures
    simp only [hg]
    cases dbg "gesture" g <;> rfl
  · intro i hi
    unfold post_gestures
    simp only [hg, hi]
  · intro msg hmsg
    unfold post_gestures
    simp only [hg, hmsg]
  · unfold post_voices
    simp only [hv]
    cases dbv "voicecommand" c <;> rfl
  · intro i hi
    unfold post_voices
    simp only [hv, hi]
  · intro msg hmsg
    unfold post_voices
    simp only [hv, hmsg]

theorem create_calls_store_once_witness :
    (post_gestures
        { name := some "Wave", intent := some "mute", app := none,
          sensitivity := none, metadata := none }
        (fun _ _ => .ok "a1")).1 = .created "a1" true ∧
    (post_gestures
        { name := some "Wave", intent := some "mute", app := none,
          sensitivity := none, metadata := none }
        (fun _ _ => .ok "a1")).2
      = [("gesture",
          { name := "Wave", intent := "mute", app := none,
            sensitivity := some ((7 : ℚ)/10), metadata := some [] })] ∧
    (post_voices
        { phrase := some "open notes", intent := some "open_notes",
          language := none, app := none, context := none }
        (fun _ _ => .error "db down")).1 = .serverError 500 "db down" := by
  have h := create_calls_store_once
    { name := some "Wave", intent := some "mute", app := none,
      sensitivity := none, metadata := none }
    { name := "Wave", intent := "mute", app := none,
      sensitivity := some ((7 : ℚ)/10), metadata := some [] }
    { phrase := some "open notes", intent := some "open_notes",
      language := none, app := none, context := none }
    { phrase := "open notes", intent := "open_notes", language := some "en",
      app := none, context := some [] }
    (fun _ _ => .ok "a1") (fun _ _ => .error "db down") rfl rfl
  exact ⟨h.2.1 "a1" rfl, h.1, h.2.2.2.2.2 "db down" rfl⟩
